import Mathlib

/-!
Verification of the GHI Level-1 HDF reader (`satpy/readers/ghi_l1.py`).

Shallow embedding conventions:
* numeric array values are `ℚ`; a missing value (NaN / fill) is `Option.none`,
  so an array is a `List (Option ℚ)`;
* an `xr.DataArray` is a `DataArray`: the value list plus an attribute record;
* fallible Python code (raised exceptions) is `Except String`;
* numpy / Python indexing (negative indices wrap, out of bounds raises) is
  `pyGet`.
-/

/-- Attribute record of a data array.  `fillValue` models the raw
`FillValue` attribute, `fillValueOut` the `_FillValue` attribute written by
`calibrate` in the counts branch. -/
structure Attrs where
  valid_range : ℚ × ℚ
  fillValue : ℚ
  units : Option String := none
  scale_factor : Option ℚ := none
  add_offset : Option ℚ := none
  fillValueOut : Option ℚ := none
deriving Repr, DecidableEq

/-- An `xarray.DataArray`: element values (flattened) plus attributes. -/
structure DataArray where
  data : List (Option ℚ)
  attrs : Attrs
deriving Repr, DecidableEq

instance {ε α : Type} [DecidableEq ε] [DecidableEq α] : DecidableEq (Except ε α) := fun x y =>
  match x, y with
  | .ok a, .ok b =>
      if h : a = b then isTrue (by rw [h]) else isFalse (fun hc => h (Except.ok.inj hc))
  | .error a, .error b =>
      if h : a = b then isTrue (by rw [h]) else isFalse (fun hc => h (Except.error.inj hc))
  | .ok _, .error _ => isFalse (fun hc => Except.noConfusion hc)
  | .error _, .ok _ => isFalse (fun hc => Except.noConfusion hc)

/-- numpy `clip(min=0)` on one value. -/
def clip0 (v : ℚ) : ℚ :=
  if v < 0 then 0 else v

/-- Python `min` over the two entries of a valid-range pair. -/
def vrMin (p : ℚ × ℚ) : ℚ :=
  if p.1 ≤ p.2 then p.1 else p.2

/-- Python `max` over the two entries of a valid-range pair. -/
def vrMax (p : ℚ × ℚ) : ℚ :=
  if p.1 ≤ p.2 then p.2 else p.1

/-- Apply a fallible element transform to every element, stopping at the
first raised error (the blocked gather of `map_blocks`, which either
computes every block or raises). -/
def mapExcept {α β : Type} (f : α → Except String β) : List α → Except String (List β)
  | [] => Except.ok []
  | x :: xs =>
    match f x with
    | Except.error e => Except.error e
    | Except.ok y =>
      match mapExcept f xs with
      | Except.error e => Except.error e
      | Except.ok ys => Except.ok (y :: ys)

/-- Python / numpy item access `l[i]`: a negative index wraps once by the
length, anything still out of bounds raises `IndexError`. -/
def pyGet {α : Type} (l : List α) (i : ℤ) : Except String α :=
  let j := if i < 0 then i + (l.length : ℤ) else i
  if 0 ≤ j then
    match l.get? j.toNat with
    | some x => Except.ok x
    | none => Except.error "IndexError"
  else Except.error "IndexError"

/-- `scale(dn, slope, offset)` from the source: `ref = dn * slope + offset`,
`ref = ref.clip(min=0)`, `ref.attrs = dn.attrs`.  Missing values (NaN)
propagate through the arithmetic and the clip. -/
def scale (dn : DataArray) (slope offset : ℚ) : DataArray :=
  { data := dn.data.map (Option.map fun v => clip0 (v * slope + offset)),
    attrs := dn.attrs }

/-- `np.append(lut, np.nan)`: the table entries followed by the NaN
sentinel. -/
def lutWithSentinel (lut : List ℚ) : List (Option ℚ) :=
  lut.map some ++ [none]

/-- The guard `da.where(data.data > lut.shape[0], lut.shape[0] - 1, data.data)`
from `apply_lut`, applied to one element; `m` is the length of the
post-append table. -/
def clampDN (m : ℕ) (v : ℚ) : ℚ :=
  if v > (m : ℚ) then (m : ℚ) - 1 else v

/-- One element of the gather `lut[data[i]]` (`_getitem` mapped over the
blocks): the element must be an integer (a NaN or fractional index raises),
and the table access follows numpy indexing. -/
def lutGather (lut2 : List (Option ℚ)) (x : Option ℚ) : Except String (Option ℚ) :=
  match x with
  | none => Except.error "IndexError"
  | some v => if v.den = 1 then pyGet lut2 v.num else Except.error "IndexError"

/-- `apply_lut(data, lut)` from the source: append the NaN sentinel, clamp
values greater than the post-append length to the last index, then gather
each element through the table.  The result keeps the input's attributes. -/
def apply_lut (data : DataArray) (lut : List ℚ) : Except String DataArray :=
  let lut2 := lutWithSentinel lut
  let clamped := data.data.map (Option.map (clampDN lut2.length))
  match mapExcept (lutGather lut2) clamped with
  | Except.error e => Except.error e
  | Except.ok res => Except.ok { data := res, attrs := data.attrs }

/-- Calibration kinds named by the dispatcher (`ds_info.get('calibration')`
may also be absent, which is `Option.none` at the use site). -/
inductive Calibration where
  | counts
  | reflectance
  | brightness_temperature
  | radiance
deriving Repr, DecidableEq

/-- The dataset descriptor `ds_info`: calibration kind, declared units, LUT
key override, and the mutably updated valid-range field. -/
structure DSInfo where
  calibration : Option Calibration
  units : String
  lut_key : Option String := none
  valid_range : Option (ℚ × ℚ) := none
deriving Repr, DecidableEq

/-- A loaded LUT: its values and its own declared valid-range attribute. -/
structure LutData where
  values : List ℚ
  valid_range : ℚ × ℚ
deriving Repr, DecidableEq

/-- The parts of the HDF file content that `calibrate` reads: the rows of
`Calibration/CALIBRATION_COEF(SCALE+OFFSET)` (each row a slope/offset pair)
and the LUT datasets by storage key. -/
structure FileHandler where
  coef_rows : List (ℚ × ℚ)
  luts : List (String × LutData)
deriving Repr, DecidableEq

/-- `self.get(lut_key)`: fetch a LUT dataset; a missing key raises. -/
def getLut (fc : FileHandler) (key : String) : Except String LutData :=
  match fc.luts.lookup key with
  | some l => Except.ok l
  | none => Except.error "KeyError"

/-- Value of one decimal digit character. -/
def digitVal (c : Char) : Option ℕ :=
  if c.isDigit then some (c.toNat - 48) else none

/-- Parse a digit string to a natural number, `none` on a non-digit. -/
def parseDigits (cs : List Char) : Option ℕ :=
  cs.foldl
    (fun acc c =>
      match acc, digitVal c with
      | some a, some d => some (a * 10 + d)
      | _, _ => none)
    (some 0)

/-- Python `int(s)` on a digit string: empty or non-digit input raises
`ValueError`. -/
def pyInt (cs : List Char) : Except String ℤ :=
  match cs with
  | [] => Except.error "ValueError"
  | _ =>
    match parseDigits cs with
    | some n => Except.ok (n : ℤ)
    | none => Except.error "ValueError"

/-- `int(file_key[-2:]) - 1` from `calibrate`: the channel index is the
integer value of the storage key's trailing two characters minus one. -/
def channelIndexOf (file_key : String) : Except String ℤ :=
  match pyInt ((file_key.data.reverse.take 2).reverse) with
  | Except.ok n => Except.ok (n - 1)
  | Except.error e => Except.error e

/-- `data.attrs['units'] = ds_info['units']` in the counts branch. -/
def withUnits (d : DataArray) (u : String) : DataArray :=
  { d with attrs := { d.attrs with units := some u } }

/-- The range mask
`data.where((data >= min(valid_range)) & (data <= max(valid_range)))`:
elements outside the bounds (and already-missing elements) become NaN. -/
def maskValidRange (d : DataArray) : DataArray :=
  let lo := vrMin d.attrs.valid_range
  let hi := vrMax d.attrs.valid_range
  { d with
    data := d.data.map fun x =>
      x.bind fun v => if lo ≤ v ∧ v ≤ hi then some v else none }

/-- `data.attrs['_FillValue'] = data.attrs['FillValue'].item()` in the
counts branch. -/
def attachFill (d : DataArray) : DataArray :=
  { d with attrs := { d.attrs with fillValueOut := some d.attrs.fillValue } }

/-- `calibrate_to_reflectance(data, channel_index, ds_info)`: force channel
index 0 for a single-row coefficient table, read slope and offset from the
table, apply `scale`, multiply by 100, and rewrite the descriptor
valid-range as `(raw_valid_range * slope + offset) * 100`. -/
def calibrate_to_reflectance (fc : FileHandler) (data : DataArray) (channel_index : ℤ)
    (ds_info : DSInfo) : Except String (DataArray × DSInfo) :=
  let num_channel := fc.coef_rows.length
  let ci := if num_channel = 1 then 0 else channel_index
  match pyGet fc.coef_rows ci with
  | Except.error e => Except.error e
  | Except.ok row =>
    let d1 := { data with
      attrs := { data.attrs with scale_factor := some row.1, add_offset := some row.2 } }
    let d2 := scale d1 row.1 row.2
    let d3 := { d2 with data := d2.data.map (Option.map fun v => v * 100) }
    let vr := d3.attrs.valid_range
    Except.ok (d3, { ds_info with
      valid_range := some ((vr.1 * row.1 + row.2) * 100, (vr.2 * row.1 + row.2) * 100) })

/-- `calibrate_to_bt(data, ds_info, ds_name)`: resolve the LUT storage key
(descriptor override or the dataset name), fetch the LUT, apply it, and set
the descriptor valid-range to the LUT's own declared valid-range. -/
def calibrate_to_bt (fc : FileHandler) (data : DataArray) (ds_info : DSInfo)
    (ds_name : String) : Except String (DataArray × DSInfo) :=
  let lut_key := "Calibration/" ++ (match ds_info.lut_key with
    | some k => k
    | none => ds_name)
  match getLut fc lut_key with
  | Except.error e => Except.error e
  | Except.ok lut =>
    match apply_lut data lut.values with
    | Except.error e => Except.error e
    | Except.ok res => Except.ok (res, { ds_info with valid_range := some lut.valid_range })

/-- The if/elif dispatch at the head of `calibrate`: passthrough for counts
or absent calibration, reflectance and brightness-temperature transforms,
and the unconditional failure for radiance. -/
def calibrateStep (fc : FileHandler) (data : DataArray) (ds_info : DSInfo)
    (ds_name file_key : String) : Except String (DataArray × DSInfo) :=
  match ds_info.calibration with
  | none =>
    Except.ok (withUnits data ds_info.units,
               { ds_info with valid_range := some data.attrs.valid_range })
  | some Calibration.counts =>
    Except.ok (withUnits data ds_info.units,
               { ds_info with valid_range := some data.attrs.valid_range })
  | some Calibration.reflectance =>
    match channelIndexOf file_key with
    | Except.error e => Except.error e
    | Except.ok k => calibrate_to_reflectance fc data k ds_info
  | some Calibration.brightness_temperature => calibrate_to_bt fc data ds_info ds_name
  | some Calibration.radiance => Except.error "Calibration to radiance is not supported."

/-- `calibrate(data, ds_info, ds_name, file_key)`: the dispatch above
followed by the valid-range mask for every kind except counts; for counts
the raw fill attribute is copied to `_FillValue` instead. -/
def calibrate (fc : FileHandler) (data : DataArray) (ds_info : DSInfo)
    (ds_name file_key : String) : Except String (DataArray × DSInfo) :=
  match calibrateStep fc data ds_info ds_name file_key with
  | Except.error e => Except.error e
  | Except.ok (d, info) =>
    if ds_info.calibration ≠ some Calibration.counts then
      Except.ok (maskValidRange d, info)
    else
      Except.ok (attachFill d, info)

/-- Example attributes used for concrete test inputs. -/
def exAttrs : Attrs :=
  { valid_range := (0, 1000), fillValue := 65535 }

/-- Concrete file handler for the reflectance example: a two-row
coefficient table. -/
def fcC4 : FileHandler :=
  { coef_rows := [(1/2, 1/4), (2, 3)], luts := [] }

/-- Concrete raw array for the reflectance example. -/
def dataC4 : DataArray :=
  ⟨[some 1], { valid_range := (0, 10), fillValue := 65535 }⟩

/-- Concrete descriptor for the reflectance example. -/
def dsC4 : DSInfo :=
  { calibration := some Calibration.reflectance, units := "%" }

/-- Intermediate array of the reflectance example before the range mask:
`(1 * 2 + 3) * 100 = 500`. -/
def midC4 : DataArray :=
  ⟨[some 500],
   { valid_range := (0, 10), fillValue := 65535, scale_factor := some 2, add_offset := some 3 }⟩

/-- Final array of the reflectance example: 500 falls outside (0, 10). -/
def outC4 : DataArray :=
  ⟨[none],
   { valid_range := (0, 10), fillValue := 65535, scale_factor := some 2, add_offset := some 3 }⟩

/-- Final descriptor of the reflectance example:
valid-range `((0 * 2 + 3) * 100, (10 * 2 + 3) * 100)`. -/
def infoC4 : DSInfo :=
  { calibration := some Calibration.reflectance, units := "%", valid_range := some (300, 2300) }

/-- `RESOLUTION_LIST`: the four supported nominal resolutions in metres. -/
def RESOLUTION_LIST : List ℕ := [250, 500, 1000, 2000]

/-- `_COFF_list`: column offsets by resolution index. -/
def _COFF_list : List ℚ := [21982.5, 10991.5, 5495.5, 2747.5]

/-- `_CFAC_list`: column scale factors by resolution index. -/
def _CFAC_list : List ℚ := [163730198.0, 81865099.0, 40932549.0, 20466274.0]

/-- `_LOFF_list`: line offsets by resolution index. -/
def _LOFF_list : List ℚ := [21982.5, 10991.5, 5495.5, 2747.5]

/-- `_LFAC_list`: line scale factors by resolution index. -/
def _LFAC_list : List ℚ := [163730198.0, 81865099.0, 40932549.0, 20466274.0]

/-- `_NLINE_list`: grid line counts by resolution index (unused by
`get_area_def`). -/
def _NLINE_list : List ℚ := [43960/2, 21980/2, 10990/2, 5495/2]

/-- `_NCOLS_list`: grid column counts by resolution index (unused by
`get_area_def`). -/
def _NCOLS_list : List ℚ := [43960/2, 21980/2, 10990/2, 5495/2]

/-- Python `list.index(x)`: position of the first occurrence, `None`
modelling the raised `ValueError` when absent. -/
def listIndex (x : ℕ) : List ℕ → Option ℕ
  | [] => none
  | a :: as => if a = x then some 0 else (listIndex x as).map (· + 1)

/-- The file attributes `get_area_def` reads: the four corner-point
geodetic coordinates, begin/end line and pixel numbers, ellipsoid
semi-axes, satellite height, sub-satellite longitude, region size, and
angular steps. -/
structure AreaFileContent where
  corner_lon_0 : ℚ
  corner_lon_1 : ℚ
  corner_lon_2 : ℚ
  corner_lon_3 : ℚ
  corner_lat_0 : ℚ
  corner_lat_1 : ℚ
  corner_lat_2 : ℚ
  corner_lat_3 : ℚ
  begin_line : ℚ
  end_line : ℚ
  begin_pixel : ℚ
  end_pixel : ℚ
  semi_major : ℚ
  semi_minor : ℚ
  nom_sat_height : ℚ
  nom_sub_sat_lon : ℚ
  reg_length : ℚ
  reg_width : ℚ
  d_sampling_angle : ℚ
  d_stepping_angle : ℚ
  observation_type : String
deriving Repr, DecidableEq

/-- The `proj_dict` handed to the external `Proj` constructor (the fixed
string fields `proj=geos`, `units=m`, `sweep=x` are omitted as constants). -/
structure ProjDict where
  a : ℚ
  lon_0 : ℚ
  h : ℚ
  rf : ℚ
deriving Repr, DecidableEq

/-- The area-parameter bundle `pdict` handed to the external
`get_area_definition`. -/
structure PDict where
  coff : ℚ
  loff : ℚ
  cfac : ℚ
  lfac : ℚ
  a : ℚ
  b : ℚ
  h : ℚ
  ssp_lon : ℚ
  nlines : ℚ
  ncols : ℚ
  col_step_ang : ℚ
  line_step_ang : ℚ
  scandir : String
  a_desc : String
  a_name : String
  p_id : String
deriving Repr, DecidableEq

/-- The external `get_area_definition(pdict, extent)` collaborator, modelled
as a record of its two arguments. -/
structure AreaDefinition where
  pdict : PDict
  extent : ℚ × ℚ × ℚ × ℚ
deriving Repr, DecidableEq

/-- The projection dictionary built inside `get_area_def`:
`a` and `h` in metres, `lon_0` the sub-satellite longitude, and
`rf = 1 / (a / b - 1)`. -/
def projDictOf (fc : AreaFileContent) : ProjDict :=
  { a := fc.semi_major * 1000,
    lon_0 := fc.nom_sub_sat_lon,
    h := fc.nom_sat_height * 1000,
    rf := 1 / (fc.semi_major * 1000 / (fc.semi_minor * 1000) - 1) }

/-- Body of `get_area_def` once the resolution-indexed constants are in
hand: build `pdict`, apply the `- 1` adjustment to the grid counts, project
the four corners, undo the adjustment with `+ 1`, and construct the area
from corners 2 and 3 cross-combined as `(x2, y3, x3, y2)`. -/
def mkAreaDef (fc : AreaFileContent) (proj : ProjDict → ℚ → ℚ → ℚ × ℚ)
    (name : String) (coff loff cfac lfac : ℚ) : AreaDefinition :=
  let p1 := (fc.corner_lon_0, fc.corner_lat_0)
  let p2 := (fc.corner_lon_1, fc.corner_lat_1)
  let p3 := (fc.corner_lon_2, fc.corner_lat_2)
  let p4 := (fc.corner_lon_3, fc.corner_lat_3)
  let b250 := ["C01"]
  let b500 := ["C02", "C03", "C04", "C05", "C06"]
  let name_id :=
    if name ∈ b250 then (fc.observation_type ++ "_250m", "FY-4A, 250m")
    else if name ∈ b500 then (fc.observation_type ++ "_500m", "FY-4A, 500m")
    else (fc.observation_type ++ "_2000m", "FY-4A, 2000m")
  let pdict0 : PDict :=
    { coff := coff, loff := -loff, cfac := cfac, lfac := lfac,
      a := fc.semi_major * 1000, b := fc.semi_minor * 1000,
      h := fc.nom_sat_height * 1000, ssp_lon := fc.nom_sub_sat_lon,
      nlines := fc.reg_length, ncols := fc.reg_width,
      col_step_ang := fc.d_sampling_angle * (1 / 1000000),
      line_step_ang := fc.d_stepping_angle * (1 / 1000000),
      scandir := "N2S",
      a_desc := "AGRI " ++ fc.observation_type ++ " area",
      a_name := name_id.1, p_id := name_id.2 }
  let pdict1 := { pdict0 with nlines := pdict0.nlines - 1, ncols := pdict0.ncols - 1 }
  let pd := projDictOf fc
  let o1 := proj pd p1.1 p1.2
  let o2 := proj pd p2.1 p2.2
  let o3 := proj pd p3.1 p3.2
  let o4 := proj pd p4.1 p4.2
  let lons := (o1.1, o2.1, o3.1, o4.1)
  let lats := (o1.2, o2.2, o3.2, o4.2)
  let pdict2 := { pdict1 with nlines := pdict1.nlines + 1, ncols := pdict1.ncols + 1 }
  { pdict := pdict2, extent := (lons.2.2.1, lats.2.2.2, lons.2.2.2, lats.2.2.1) }

/-- `get_area_def(key)`: look the requested resolution up in
`RESOLUTION_LIST` (a miss raises before anything is built), fetch the four
resolution-indexed constants, and build the area definition.  The external
projection is passed in as `proj`. -/
def get_area_def (fc : AreaFileContent) (proj : ProjDict → ℚ → ℚ → ℚ × ℚ)
    (res : ℕ) (name : String) : Except String AreaDefinition :=
  match listIndex res RESOLUTION_LIST with
  | none => Except.error "ValueError"
  | some idx =>
    match _COFF_list.get? idx, _LOFF_list.get? idx, _CFAC_list.get? idx, _LFAC_list.get? idx with
    | some coff, some loff, some cfac, some lfac =>
      Except.ok (mkAreaDef fc proj name coff loff cfac lfac)
    | _, _, _, _ => Except.error "IndexError"

/-- A concrete projection used in witnesses: the identity on coordinates. -/
def projEx : ProjDict → ℚ → ℚ → ℚ × ℚ :=
  fun _ lon lat => (lon, lat)

/-- Concrete file content for the area witnesses. -/
def fcEx : AreaFileContent :=
  { corner_lon_0 := 60, corner_lon_1 := 140, corner_lon_2 := 60, corner_lon_3 := 140,
    corner_lat_0 := 50, corner_lat_1 := 50, corner_lat_2 := -50, corner_lat_3 := -50,
    begin_line := 1, end_line := 100, begin_pixel := 1, end_pixel := 100,
    semi_major := 6378.137, semi_minor := 6356.7523,
    nom_sat_height := 35786, nom_sub_sat_lon := 105,
    reg_length := 100, reg_width := 100,
    d_sampling_angle := 56, d_stepping_angle := 56,
    observation_type := "REGC" }

/-- A second concrete file content, equal to `fcEx` on the begin/end line
and pixel numbers but with different region-size attributes. -/
def fcEx2 : AreaFileContent :=
  { fcEx with reg_length := 7, reg_width := 7 }

/-- Claim C9: `scale d s o` equals `d * s + o` clamped below at 0, every
present element of the result is nonnegative, missing (NaN) values
propagate, and the result's attribute set equals the input's. -/
theorem scale_spec_C9 (d : DataArray) (s o : ℚ) :
    (scale d s o).data = d.data.map (Option.map fun v => clip0 (v * s + o)) ∧
    (∀ i v, (scale d s o).data.get? i = some (some v) → 0 ≤ v) ∧
    (∀ i, d.data.get? i = some none → (scale d s o).data.get? i = some none) ∧
    (scale d s o).attrs = d.attrs := by
  refine ⟨rfl, ?_, ?_, rfl⟩
  · intro i v h
    rw [List.get?_eq_getElem?] at h
    simp only [scale, List.getElem?_map] at h
    cases hx : d.data[i]? with
    | none => rw [hx] at h; simp at h
    | some x =>
      rw [hx] at h
      cases x with
      | none => simp at h
      | some w =>
        simp only [Option.map_some', Option.some.injEq, Option.map] at h
        rw [← h]
        unfold clip0
        split
        · exact le_refl 0
        · linarith [not_lt.mp (by assumption : ¬ w * s + o < 0)]
  · intro i h
    rw [List.get?_eq_getElem?] at h ⊢
    simp only [scale, List.getElem?_map, h, Option.map_some', Option.map]

/-- Witness for C9 at a concrete input: element `2 * 2 + 3 = 7` of
`scale ⟨[some 2], _⟩ 2 3` is nonnegative and the attributes are kept. -/
theorem scale_spec_C9_witness :
    (0 : ℚ) ≤ 7 ∧ (scale ⟨[some 2], exAttrs⟩ 2 3).attrs = exAttrs :=
  ⟨(scale_spec_C9 ⟨[some 2], exAttrs⟩ 2 3).2.1 0 7 (by norm_num [scale, clip0]),
   (scale_spec_C9 ⟨[some 2], exAttrs⟩ 2 3).2.2.2⟩

/-- Claim C1 (failing input): for the LUT `[10, 20]` of pre-append length
`n = 2`, the DN value `v = 3 = n + 1` escapes the clamp (the guard tests
`v > n + 1`) and the gather indexes position 3 of the 3-entry post-append
table, raising `IndexError` instead of producing the NaN sentinel. -/
theorem apply_lut_oob_C1 :
    apply_lut ⟨[some 3], exAttrs⟩ [10, 20] = Except.error "IndexError" := rfl

/-- Claim C2 (failing input): for the LUT `[5]` of pre-append length
`n = 1`, the DN value `v = 2 = n + 1` is not coerced to a valid index and
the gather performs a true out-of-bounds access (position 2 of the 2-entry
post-append table). -/
theorem apply_lut_oob_C2 :
    apply_lut ⟨[some 2], exAttrs⟩ [5] = Except.error "IndexError" := rfl

/-- In-bounds behaviour of `apply_lut` at concrete inputs: `v ≤ n - 1`
yields the table entry, `v = n` and `v ≥ n + 2` yield the NaN sentinel. -/
theorem apply_lut_in_bounds_examples :
    apply_lut ⟨[some 0, some 1, some 2, some 4], exAttrs⟩ [10, 20] =
      Except.ok ⟨[some 10, some 20, none, none], exAttrs⟩ := by
  norm_num [apply_lut, lutWithSentinel, mapExcept, lutGather, clampDN, pyGet]
  rfl

/-- Any element present after the valid-range mask lies within the bounds
taken from the array's valid-range attribute. -/
lemma maskValidRange_get (d : DataArray) (i : ℕ) (v : ℚ)
    (h : (maskValidRange d).data.get? i = some (some v)) :
    vrMin d.attrs.valid_range ≤ v ∧ v ≤ vrMax d.attrs.valid_range := by
  rw [List.get?_eq_getElem?] at h
  simp only [maskValidRange, List.getElem?_map] at h
  cases hx : d.data[i]? with
  | none => rw [hx] at h; simp at h
  | some x =>
    rw [hx] at h
    simp only [Option.map_some', Option.some.injEq] at h
    cases x with
    | none => simp at h
    | some w =>
      simp only [Option.some_bind] at h
      split at h
      · next hcond =>
        cases h
        exact hcond
      · cases h

/-- The valid-range mask keeps the attribute record unchanged. -/
lemma maskValidRange_attrs (d : DataArray) : (maskValidRange d).attrs = d.attrs := rfl

/-- Claim C6: requesting radiance calibration always raises
`NotImplementedError` and never returns a value. -/
theorem calibrate_radiance_C6 (fc : FileHandler) (data : DataArray) (ds_info : DSInfo)
    (ds_name file_key : String)
    (h : ds_info.calibration = some Calibration.radiance) :
    calibrate fc data ds_info ds_name file_key =
      Except.error "Calibration to radiance is not supported." := by
  simp [calibrate, calibrateStep, h]

/-- Witness for C6 at a concrete input. -/
theorem calibrate_radiance_C6_witness :
    calibrate ⟨[], []⟩ ⟨[some 1], exAttrs⟩
        { calibration := some Calibration.radiance, units := "mW" } "C07" "NOMChannel07" =
      Except.error "Calibration to radiance is not supported." :=
  calibrate_radiance_C6 ⟨[], []⟩ ⟨[some 1], exAttrs⟩
    { calibration := some Calibration.radiance, units := "mW" } "C07" "NOMChannel07" rfl

/-- Claim C3: for every calibration kind other than counts, every element
present in the returned array lies within the min/max of the array's
valid-range attribute (all others are missing); for counts no mask is
applied (the data is returned unchanged) and the single `_FillValue`
attribute is taken from the raw array's `FillValue` attribute. -/
theorem calibrate_mask_C3 (fc : FileHandler) (data : DataArray) (ds_info : DSInfo)
    (ds_name file_key : String) (out : DataArray) (info2 : DSInfo)
    (hok : calibrate fc data ds_info ds_name file_key = Except.ok (out, info2)) :
    (ds_info.calibration ≠ some Calibration.counts →
      ∀ i v, out.data.get? i = some (some v) →
        vrMin out.attrs.valid_range ≤ v ∧ v ≤ vrMax out.attrs.valid_range) ∧
    (ds_info.calibration = some Calibration.counts →
      out.data = data.data ∧ out.attrs.fillValueOut = some data.attrs.fillValue) := by
  constructor
  · intro hne i v hget
    unfold calibrate at hok
    cases hstep : calibrateStep fc data ds_info ds_name file_key with
    | error e => rw [hstep] at hok; cases hok
    | ok p =>
      rw [hstep] at hok
      obtain ⟨d, info⟩ := p
      dsimp only at hok
      rw [if_pos hne] at hok
      simp only [Except.ok.injEq, Prod.mk.injEq] at hok
      obtain ⟨h1, _⟩ := hok
      subst h1
      exact maskValidRange_get d i v hget
  · intro hc
    unfold calibrate at hok
    simp only [calibrateStep, hc] at hok
    rw [if_neg (by simp [hc])] at hok
    simp only [Except.ok.injEq, Prod.mk.injEq] at hok
    obtain ⟨h1, _⟩ := hok
    subst h1
    exact ⟨rfl, rfl⟩

/-- Witness for C3: a passthrough dataset (no calibration kind) with
valid-range (0, 1000); the surviving element 5 lies within the bounds. -/
theorem calibrate_mask_C3_witness :
    vrMin ((0 : ℚ), (1000 : ℚ)) ≤ 5 ∧ (5 : ℚ) ≤ vrMax ((0 : ℚ), (1000 : ℚ)) :=
  (calibrate_mask_C3 ⟨[], []⟩ ⟨[some 5, some 2000], exAttrs⟩
      { calibration := none, units := "1" } "n" "k"
      ⟨[some 5, none], { exAttrs with units := some "1" }⟩
      { calibration := none, units := "1", valid_range := some (0, 1000) }
      (by
        norm_num [calibrate, calibrateStep, withUnits, maskValidRange, vrMin, vrMax, exAttrs]
        intro h
        simp at h)).1
    (by simp) 0 5 rfl

/-- Claim C4: in a reflectance calibration the channel index is
`int(file_key[-2:]) - 1` (forced to 0 for a single-row coefficient table),
the branch result equals the `scale` output multiplied by exactly 100, and
the descriptor valid-range is recomputed as
`(raw_valid_range * slope + offset) * 100` componentwise on the unordered
pair. -/
theorem calibrate_reflectance_C4 (fc : FileHandler) (data : DataArray) (ds_info : DSInfo)
    (ds_name file_key : String) (out : DataArray) (info2 : DSInfo)
    (hcal : ds_info.calibration = some Calibration.reflectance)
    (hok : calibrate fc data ds_info ds_name file_key = Except.ok (out, info2)) :
    ∃ k row mid,
      channelIndexOf file_key = Except.ok k ∧
      pyGet fc.coef_rows (if fc.coef_rows.length = 1 then 0 else k) = Except.ok row ∧
      calibrate_to_reflectance fc data k ds_info = Except.ok (mid, info2) ∧
      mid.data = (scale data row.1 row.2).data.map (Option.map fun v => v * 100) ∧
      info2.valid_range =
        some ((data.attrs.valid_range.1 * row.1 + row.2) * 100,
              (data.attrs.valid_range.2 * row.1 + row.2) * 100) ∧
      out = maskValidRange mid := by
  unfold calibrate at hok
  cases hstep : calibrateStep fc data ds_info ds_name file_key with
  | error e => rw [hstep] at hok; cases hok
  | ok p =>
    rw [hstep] at hok
    obtain ⟨mid, minfo⟩ := p
    dsimp only at hok
    rw [if_pos (by simp [hcal])] at hok
    simp only [Except.ok.injEq, Prod.mk.injEq] at hok
    obtain ⟨hout, hinfo⟩ := hok
    subst hinfo
    unfold calibrateStep at hstep
    rw [hcal] at hstep
    cases hk : channelIndexOf file_key with
    | error e => rw [hk] at hstep; cases hstep
    | ok k =>
      rw [hk] at hstep
      dsimp only at hstep
      have hstep0 := hstep
      simp only [calibrate_to_reflectance] at hstep
      cases hrow : pyGet fc.coef_rows (if fc.coef_rows.length = 1 then 0 else k) with
      | error e => rw [hrow] at hstep; cases hstep
      | ok row =>
        rw [hrow] at hstep
        dsimp only at hstep
        simp only [Except.ok.injEq, Prod.mk.injEq] at hstep
        obtain ⟨hmid, hminfo⟩ := hstep
        refine ⟨k, row, mid, rfl, hrow, hstep0, ?_, ?_, hout.symm⟩
        · rw [← hmid]
          simp [scale]
        · rw [← hminfo]
          simp [scale]

/-- Witness for C4: file key `NOMChannel02` gives channel index 1, slope 2
and offset 3; `(1 * 2 + 3) * 100 = 500` and the recomputed valid-range is
`(300, 2300)`. -/
theorem calibrate_reflectance_C4_witness :
    ∃ k row mid,
      channelIndexOf "NOMChannel02" = Except.ok k ∧
      pyGet fcC4.coef_rows (if fcC4.coef_rows.length = 1 then 0 else k) = Except.ok row ∧
      calibrate_to_reflectance fcC4 dataC4 k dsC4 = Except.ok (mid, infoC4) ∧
      mid.data = (scale dataC4 row.1 row.2).data.map (Option.map fun v => v * 100) ∧
      infoC4.valid_range =
        some ((dataC4.attrs.valid_range.1 * row.1 + row.2) * 100,
              (dataC4.attrs.valid_range.2 * row.1 + row.2) * 100) ∧
      outC4 = maskValidRange mid :=
  calibrate_reflectance_C4 fcC4 dataC4 dsC4 "C02" "NOMChannel02" outC4 infoC4 rfl
    (by
      have hch : channelIndexOf "NOMChannel02" = Except.ok 1 := by decide
      norm_num [calibrate, calibrateStep, hch, calibrate_to_reflectance, pyGet,
        scale, clip0, maskValidRange, vrMin, vrMax, Int.toNat_ofNat,
        fcC4, dataC4, dsC4, outC4, infoC4]
      intro h
      simp at h)

/-- `listIndex` misses exactly on elements not in the list. -/
lemma listIndex_eq_none_iff (x : ℕ) (l : List ℕ) :
    listIndex x l = none ↔ x ∉ l := by
  induction l with
  | nil => simp [listIndex]
  | cons a as ih =>
    simp only [listIndex, List.mem_cons]
    by_cases hax : a = x
    · simp [hax]
    · simp only [if_neg hax, Option.map_eq_none', ih]
      constructor
      · intro h hmem
        rcases hmem with h1 | h1
        · exact hax h1.symm
        · exact h h1
      · intro h
        exact fun hm => h (Or.inr hm)

/-- A hit of `listIndex` is a position inside the list. -/
lemma listIndex_lt_length (x : ℕ) (l : List ℕ) (idx : ℕ)
    (h : listIndex x l = some idx) : idx < l.length := by
  induction l generalizing idx with
  | nil => simp [listIndex] at h
  | cons a as ih =>
    simp only [listIndex] at h
    split at h
    · cases h
      simp
    · rw [Option.map_eq_some'] at h
      obtain ⟨j, hj, hji⟩ := h
      have hjl := ih j hj
      subst hji
      simpa using Nat.succ_lt_succ hjl

/-- Every successful `get_area_def` result is `mkAreaDef` applied to the
four table entries at the looked-up resolution index. -/
lemma get_area_def_ok_shape (fc : AreaFileContent) (proj : ProjDict → ℚ → ℚ → ℚ × ℚ)
    (res : ℕ) (name : String) (area : AreaDefinition)
    (hok : get_area_def fc proj res name = Except.ok area) :
    ∃ idx coff loff cfac lfac,
      listIndex res RESOLUTION_LIST = some idx ∧
      _COFF_list.get? idx = some coff ∧
      _LOFF_list.get? idx = some loff ∧
      _CFAC_list.get? idx = some cfac ∧
      _LFAC_list.get? idx = some lfac ∧
      area = mkAreaDef fc proj name coff loff cfac lfac := by
  unfold get_area_def at hok
  cases hidx : listIndex res RESOLUTION_LIST with
  | none => rw [hidx] at hok; cases hok
  | some idx =>
    rw [hidx] at hok
    have hlt : idx < 4 := by
      have h4 := listIndex_lt_length res RESOLUTION_LIST idx hidx
      simpa [RESOLUTION_LIST] using h4
    interval_cases idx
    · refine ⟨0, 21982.5, 21982.5, 163730198.0, 163730198.0, rfl, rfl, rfl, rfl, rfl, ?_⟩
      dsimp only [_COFF_list, _LOFF_list, _CFAC_list, _LFAC_list, List.get?] at hok
      exact (Except.ok.inj hok).symm
    · refine ⟨1, 10991.5, 10991.5, 81865099.0, 81865099.0, rfl, rfl, rfl, rfl, rfl, ?_⟩
      dsimp only [_COFF_list, _LOFF_list, _CFAC_list, _LFAC_list, List.get?] at hok
      exact (Except.ok.inj hok).symm
    · refine ⟨2, 5495.5, 5495.5, 40932549.0, 40932549.0, rfl, rfl, rfl, rfl, rfl, ?_⟩
      dsimp only [_COFF_list, _LOFF_list, _CFAC_list, _LFAC_list, List.get?] at hok
      exact (Except.ok.inj hok).symm
    · refine ⟨3, 2747.5, 2747.5, 20466274.0, 20466274.0, rfl, rfl, rfl, rfl, rfl, ?_⟩
      dsimp only [_COFF_list, _LOFF_list, _CFAC_list, _LFAC_list, List.get?] at hok
      exact (Except.ok.inj hok).symm

/-- Claim C5: every area produced by `get_area_def` has as extent the
projected corner points at indices 2 and 3 cross-combined:
`(x2, y3, x3, y2)`. -/
theorem get_area_def_extent_C5 (fc : AreaFileContent) (proj : ProjDict → ℚ → ℚ → ℚ × ℚ)
    (res : ℕ) (name : String) (area : AreaDefinition)
    (hok : get_area_def fc proj res name = Except.ok area) :
    area.extent =
      ((proj (projDictOf fc) fc.corner_lon_2 fc.corner_lat_2).1,
       (proj (projDictOf fc) fc.corner_lon_3 fc.corner_lat_3).2,
       (proj (projDictOf fc) fc.corner_lon_3 fc.corner_lat_3).1,
       (proj (projDictOf fc) fc.corner_lon_2 fc.corner_lat_2).2) := by
  obtain ⟨idx, coff, loff, cfac, lfac, _, _, _, _, _, harea⟩ :=
    get_area_def_ok_shape fc proj res name area hok
  subst harea
  rfl

/-- Witness for C5 at resolution 250 with the identity projection. -/
theorem get_area_def_extent_C5_witness :
    (mkAreaDef fcEx projEx "C01" 21982.5 21982.5 163730198.0 163730198.0).extent =
      ((projEx (projDictOf fcEx) fcEx.corner_lon_2 fcEx.corner_lat_2).1,
       (projEx (projDictOf fcEx) fcEx.corner_lon_3 fcEx.corner_lat_3).2,
       (projEx (projDictOf fcEx) fcEx.corner_lon_3 fcEx.corner_lat_3).1,
       (projEx (projDictOf fcEx) fcEx.corner_lon_2 fcEx.corner_lat_2).2) :=
  get_area_def_extent_C5 fcEx projEx 250 "C01"
    (mkAreaDef fcEx projEx "C01" 21982.5 21982.5 163730198.0 163730198.0) rfl

/-- Claim C7: `get_area_def` fails with the lookup error (constructing no
area) exactly when the requested resolution is outside the fixed
four-element table, and succeeds for each of the four supported
resolutions. -/
theorem get_area_def_resolution_C7 (fc : AreaFileContent)
    (proj : ProjDict → ℚ → ℚ → ℚ × ℚ) (res : ℕ) (name : String) :
    (res ∉ RESOLUTION_LIST → get_area_def fc proj res name = Except.error "ValueError") ∧
    (res ∈ RESOLUTION_LIST → ∃ area, get_area_def fc proj res name = Except.ok area) := by
  constructor
  · intro hmem
    have h0 : listIndex res RESOLUTION_LIST = none :=
      (listIndex_eq_none_iff res RESOLUTION_LIST).mpr hmem
    unfold get_area_def
    rw [h0]
  · intro hmem
    have hcases : res = 250 ∨ res = 500 ∨ res = 1000 ∨ res = 2000 := by
      simpa [RESOLUTION_LIST] using hmem
    rcases hcases with h | h | h | h <;> subst h
    · exact ⟨mkAreaDef fc proj name 21982.5 21982.5 163730198.0 163730198.0, rfl⟩
    · exact ⟨mkAreaDef fc proj name 10991.5 10991.5 81865099.0 81865099.0, rfl⟩
    · exact ⟨mkAreaDef fc proj name 5495.5 5495.5 40932549.0 40932549.0, rfl⟩
    · exact ⟨mkAreaDef fc proj name 2747.5 2747.5 20466274.0 20466274.0, rfl⟩

/-- Witness for C7: resolution 123 fails the lookup, resolution 500
succeeds. -/
theorem get_area_def_resolution_C7_witness :
    get_area_def fcEx projEx 123 "C01" = Except.error "ValueError" ∧
    ∃ area, get_area_def fcEx projEx 500 "C01" = Except.ok area :=
  ⟨(get_area_def_resolution_C7 fcEx projEx 123 "C01").1 (by decide),
   (get_area_def_resolution_C7 fcEx projEx 500 "C01").2 (by decide)⟩

/-- Counterexample to C8 as stated: two files with identical begin/end line
and pixel numbers but different `RegLength`/`RegWidth` attributes produce
different grid counts, so `nlines`/`ncols` are not derived from the
begin/end line and pixel numbers. -/
theorem get_area_def_grid_counts_C8_counterexample :
    fcEx.begin_line = fcEx2.begin_line ∧ fcEx.end_line = fcEx2.end_line ∧
    fcEx.begin_pixel = fcEx2.begin_pixel ∧ fcEx.end_pixel = fcEx2.end_pixel ∧
    ∃ a1 a2,
      get_area_def fcEx projEx 500 "C01" = Except.ok a1 ∧
      get_area_def fcEx2 projEx 500 "C01" = Except.ok a2 ∧
      a1.pdict.nlines ≠ a2.pdict.nlines := by
  refine ⟨rfl, rfl, rfl, rfl,
    mkAreaDef fcEx projEx "C01" 10991.5 10991.5 81865099.0 81865099.0,
    mkAreaDef fcEx2 projEx "C01" 10991.5 10991.5 81865099.0 81865099.0,
    rfl, rfl, ?_⟩
  norm_num [mkAreaDef, fcEx, fcEx2]

/-- Claim C8 (amended): `nlines`/`ncols` are taken from the `RegLength` and
`RegWidth` attributes (the begin/end line and pixel numbers are read but
unused for them), adjusted by `- 1` and then `+ 1`, and the values finally
passed to the area constructor equal the original attribute values. -/
theorem get_area_def_grid_counts_C8 (fc : AreaFileContent)
    (proj : ProjDict → ℚ → ℚ → ℚ × ℚ) (res : ℕ) (name : String) (area : AreaDefinition)
    (hok : get_area_def fc proj res name = Except.ok area) :
    area.pdict.nlines = fc.reg_length ∧ area.pdict.ncols = fc.reg_width := by
  obtain ⟨idx, coff, loff, cfac, lfac, _, _, _, _, _, harea⟩ :=
    get_area_def_ok_shape fc proj res name area hok
  subst harea
  constructor
  · show fc.reg_length - 1 + 1 = fc.reg_length
    ring
  · show fc.reg_width - 1 + 1 = fc.reg_width
    ring

/-- Witness for the amended C8 at resolution 500. -/
theorem get_area_def_grid_counts_C8_witness :
    (mkAreaDef fcEx projEx "C01" 10991.5 10991.5 81865099.0 81865099.0).pdict.nlines =
      fcEx.reg_length ∧
    (mkAreaDef fcEx projEx "C01" 10991.5 10991.5 81865099.0 81865099.0).pdict.ncols =
      fcEx.reg_width :=
  get_area_def_grid_counts_C8 fcEx projEx 500 "C01"
    (mkAreaDef fcEx projEx "C01" 10991.5 10991.5 81865099.0 81865099.0) rfl

/-- Claim C10: for every supported resolution the area takes `coff` from
the column-offset table entry, `loff` as the negation of the line-offset
table entry, and `cfac`/`lfac` unnegated, while the column- and line-offset
tables (and the two scale-factor tables) hold identical values. -/
theorem get_area_def_offsets_C10 (fc : AreaFileContent)
    (proj : ProjDict → ℚ → ℚ → ℚ × ℚ) (name : String) (res idx : ℕ)
    (area : AreaDefinition)
    (hidx : listIndex res RESOLUTION_LIST = some idx)
    (hok : get_area_def fc proj res name = Except.ok area) :
    _COFF_list = _LOFF_list ∧ _CFAC_list = _LFAC_list ∧
    ∃ coff loff cfac lfac,
      _COFF_list.get? idx = some coff ∧ _LOFF_list.get? idx = some loff ∧
      _CFAC_list.get? idx = some cfac ∧ _LFAC_list.get? idx = some lfac ∧
      area.pdict.coff = coff ∧ area.pdict.loff = -loff ∧
      area.pdict.cfac = cfac ∧ area.pdict.lfac = lfac := by
  obtain ⟨idx2, coff, loff, cfac, lfac, hidx2, h1, h2, h3, h4, harea⟩ :=
    get_area_def_ok_shape fc proj res name area hok
  rw [hidx] at hidx2
  injection hidx2 with hi
  subst hi
  subst harea
  exact ⟨rfl, rfl, coff, loff, cfac, lfac, h1, h2, h3, h4, rfl, rfl, rfl, rfl⟩

/-- Witness for C10 at resolution 500 (table index 1). -/
theorem get_area_def_offsets_C10_witness :
    _COFF_list = _LOFF_list ∧ _CFAC_list = _LFAC_list ∧
    ∃ coff loff cfac lfac,
      _COFF_list.get? 1 = some coff ∧ _LOFF_list.get? 1 = some loff ∧
      _CFAC_list.get? 1 = some cfac ∧ _LFAC_list.get? 1 = some lfac ∧
      (mkAreaDef fcEx projEx "C02" 10991.5 10991.5 81865099.0 81865099.0).pdict.coff = coff ∧
      (mkAreaDef fcEx projEx "C02" 10991.5 10991.5 81865099.0 81865099.0).pdict.loff = -loff ∧
      (mkAreaDef fcEx projEx "C02" 10991.5 10991.5 81865099.0 81865099.0).pdict.cfac = cfac ∧
      (mkAreaDef fcEx projEx "C02" 10991.5 10991.5 81865099.0 81865099.0).pdict.lfac = lfac :=
  get_area_def_offsets_C10 fcEx projEx "C02" 500 1
    (mkAreaDef fcEx projEx "C02" 10991.5 10991.5 81865099.0 81865099.0) rfl rfl
